import Mathlib

set_option autoImplicit false

/-!
Shallow embedding of the dls_barcode continuous-scanning core.

Modelled files:
- src/dls_barcode/plate/slot.py           (Slot state record)
- src/dls_barcode/continuous.py           (continuous scan worker and capture worker)
- src/dls_barcode/camera/camera_scanner.py (camera scanner pipeline, kill protocol, beep)

The external plate Scanner module (Scanner.ScanImageContinuous), the Plate and
ScanResult classes and the Barcode class are not part of src/; where a claim
depends on them they are modelled from the specification and marked as such.
-/

/-! ### slot.py: module constants -/

def EMPTY_SLOT_SYMBOL : String := "----EMPTY----"

def NOT_FOUND_SLOT_SYMBOL : String := "-CANT-FIND-"

/-- Modelled from the spec: the barcode object produced by the external decode
capability (its class is not under src/).  slot.py only calls is_unreadable,
is_valid and data on it, and a barcode object is always truthy in Python. -/
structure Barcode where
  is_unreadable : Bool
  is_valid : Bool
  data : String
  deriving DecidableEq, Repr

/-- The Slot record of slot.py: private fields _number, _bounds,
_barcode_position, _barcode, _empty, _total_frames, _barcode_set_this_frame. -/
structure Slot where
  number : ℕ
  bounds : Option ((ℤ × ℤ) × ℤ)
  barcode_position : Option (ℤ × ℤ)
  barcode : Option Barcode
  empty : Bool
  total_frames : ℕ
  barcode_set_this_frame : Bool
  deriving DecidableEq, Repr

/-- Slot.NO_RESULT = 0 -/
def Slot.NO_RESULT : ℕ := 0

/-- Slot.EMPTY = 1 -/
def Slot.EMPTY : ℕ := 1

/-- Slot.UNREADABLE = 2 -/
def Slot.UNREADABLE : ℕ := 2

/-- Slot.VALID = 3 -/
def Slot.VALID : ℕ := 3

/-- Slot.__init__(number) -/
def Slot.init (number : ℕ) : Slot :=
  { number := number, bounds := none, barcode_position := none, barcode := none,
    empty := false, total_frames := 0, barcode_set_this_frame := false }

/-- Slot.new_frame: self._total_frames += 1; self._barcode_set_this_frame = False -/
def Slot.new_frame (s : Slot) : Slot :=
  { s with total_frames := s.total_frames + 1, barcode_set_this_frame := false }

/-- Slot.set_bounds -/
def Slot.set_bounds (s : Slot) (b : (ℤ × ℤ) × ℤ) : Slot :=
  { s with bounds := some b }

/-- Slot.set_barcode_position -/
def Slot.set_barcode_position (s : Slot) (c : ℤ × ℤ) : Slot :=
  { s with barcode_position := some c }

/-- Slot.set_barcode: self._barcode = barcode; then only when barcode is not
None: self._empty = False; self._barcode_set_this_frame = True. -/
def Slot.set_barcode (s : Slot) (b : Option Barcode) : Slot :=
  match b with
  | none => { s with barcode := none }
  | some bc => { s with barcode := some bc, empty := false, barcode_set_this_frame := true }

/-- Slot.set_empty: self._barcode = None; self._empty = True -/
def Slot.set_empty (s : Slot) : Slot :=
  { s with barcode := none, empty := true }

/-- Slot.set_no_result: self._barcode = None; self._empty = False -/
def Slot.set_no_result (s : Slot) : Slot :=
  { s with barcode := none, empty := false }

/-- Slot.state: the chained conditionals of slot.py lines 65-73.
A stored barcode object is truthy, so the Python test
(self._barcode and self._barcode.is_unreadable()) is the inner match. -/
def Slot.state (s : Slot) : ℕ :=
  if s.empty then Slot.EMPTY
  else if (match s.barcode with | some b => b.is_unreadable | none => false) then Slot.UNREADABLE
  else if (match s.barcode with | some b => b.is_valid | none => false) then Slot.VALID
  else Slot.NO_RESULT

/-- Slot.contains_barcode -/
def Slot.contains_barcode (s : Slot) : Bool :=
  decide (s.state = Slot.UNREADABLE) || decide (s.state = Slot.VALID)

/-- Slot.barcode_data: slot.py lines 79-88. -/
def Slot.barcode_data (s : Slot) : String :=
  if s.empty then EMPTY_SLOT_SYMBOL
  else match s.barcode with
    | some b => b.data
    | none => NOT_FOUND_SLOT_SYMBOL

/-! ### The frame-merge engine driven by continuous.py

continuous.py line 124 calls Scanner.ScanImageContinuous(gray_image, last_plate),
passing the previous plate into the continuous scan.  The Scanner module itself
is not under src/, so the per-slot merge is modelled from the spec (section 4.2).
-/

namespace Scanner

/-- Modelled from the spec: outcome of the external decode capability,
decode(frame, region) -> Valid(data) | Unreadable | Empty | NoResult. -/
inductive DecodeResult where
  | valid (txt : String)
  | unreadable
  | empty
  | noResult
  deriving DecidableEq, Repr

/-- Modelled from the spec (section 4.2 step 4): apply a decode outcome to a
slot via set_barcode / set_empty / set_no_result.  An Unreadable outcome stores
a sentinel-bearing unreadable barcode object, a Valid outcome a valid one. -/
def applyDecode (d : DecodeResult) (s : Slot) : Slot :=
  match d with
  | DecodeResult.valid txt => s.set_barcode (some { is_unreadable := false, is_valid := true, data := txt })
  | DecodeResult.unreadable => s.set_barcode (some { is_unreadable := true, is_valid := false, data := NOT_FOUND_SLOT_SYMBOL })
  | DecodeResult.empty => s.set_empty
  | DecodeResult.noResult => s.set_no_result

/-- Modelled from the spec (section 4.2 steps 1-4): per-slot merge for one
frame.  new_frame then set_bounds always happen; if the slot is then Valid the
decode capability is skipped (Bool result false = decode not invoked),
otherwise decode is invoked (true) and its outcome applied. -/
def mergeSlot (d : DecodeResult) (b : (ℤ × ℤ) × ℤ) (s : Slot) : Slot × Bool :=
  let s1 := (s.new_frame).set_bounds b
  if s1.state = Slot.VALID then (s1, false) else (applyDecode d s1, true)

/-- Modelled from the spec: one whole-plate merge step; dec and bnds give the
decode outcome and geometry-predicted bounds for each slot number this frame. -/
def mergeFrame (dec : ℕ → DecodeResult) (bnds : ℕ → (ℤ × ℤ) × ℤ)
    (slots : List Slot) : List (Slot × Bool) :=
  slots.map (fun s => mergeSlot (dec s.number) (bnds s.number) s)

/-- Modelled from the spec: a scanning session, slot states after n frames.
dec f i is the decode outcome the capability would produce at frame f for slot
number i; bnds f i the aligned bounds.  This is the state threaded through
continuous.py by passing last_plate into ScanImageContinuous. -/
def runFrames (dec : ℕ → ℕ → DecodeResult) (bnds : ℕ → ℕ → (ℤ × ℤ) × ℤ)
    (slots : List Slot) : ℕ → List Slot
  | 0 => slots
  | n + 1 => (mergeFrame (dec n) (bnds n) (runFrames dec bnds slots n)).map Prod.fst

/-- Whether the decode capability was invoked for each slot during frame n. -/
def invokedRow (dec : ℕ → ℕ → DecodeResult) (bnds : ℕ → ℕ → (ℤ × ℤ) × ℤ)
    (slots : List Slot) (n : ℕ) : List Bool :=
  (mergeFrame (dec n) (bnds n) (runFrames dec bnds slots n)).map Prod.snd

end Scanner

/-! ### continuous.py: scanner_worker per-frame behaviour -/

namespace Continuous

def Q_LIMIT : ℕ := 1

def SCANNED_TAG : String := "Already Scanned"

def MAX_SAMPLE_RATE : ℚ := 10

def INTERVAL : ℚ := 1 / MAX_SAMPLE_RATE

/-- The fields of the external Plate object that continuous.py reads:
scan_ok, is_full_valid(), num_slots, num_valid_barcodes.  The plate class
itself is not under src/. -/
structure CPlate where
  scan_ok : Bool
  full_valid : Bool
  num_slots : ℕ
  num_valid_barcodes : ℕ
  deriving DecidableEq, Repr

/-- Overlay messages put on the overlay queue by scanner_worker:
Overlay(None, SCANNED_TAG) or Overlay(plate). -/
inductive OverlayMsg where
  | scannedText
  | plateHighlight (p : CPlate)
  deriving DecidableEq, Repr

/-- The scan worker local variables of continuous.py lines 102-104. -/
structure WorkerState where
  last_plate : Option CPlate
  last_full_plate : Option CPlate
  frame_contains_barcodes : Bool
  deriving DecidableEq, Repr

/-- One processed frame: updated worker state plus the emissions on the result
queue, the overlay queue and the sound device. -/
structure StepOut where
  st : WorkerState
  results : List CPlate
  overlays : List OverlayMsg
  beeps : List ℤ
  deriving DecidableEq, Repr

/-- continuous.py line 142: int(10000 * ((num_slots - num_valid)/num_slots)) + 37.
continuous.py has no from-future division import and the repository is
Python 2 (tests/scratchpad.py uses print statements), so / on these ints is
floor division; int() of an int is the identity. -/
def cont_beep_freq (num_slots num_valid : ℕ) : ℤ :=
  10000 * Int.fdiv ((num_slots : ℤ) - (num_valid : ℤ)) (num_slots : ℤ) + 37

/-- continuous.py lines 134-144: the non-duplicate branch.  If the plate is
full-valid it is emitted on the result queue and becomes last_full_plate; if
the frame contained barcodes a beep and a plate overlay are emitted. -/
def store_branch (st1 : WorkerState) (plate : CPlate) (fcb : Bool) : StepOut :=
  { st := if plate.full_valid then { st1 with last_full_plate := some plate } else st1,
    results := if plate.full_valid then [plate] else [],
    overlays := if fcb then [OverlayMsg.plateHighlight plate] else [],
    beeps := if fcb then [cont_beep_freq plate.num_slots plate.num_valid_barcodes] else [] }

/-- continuous.py scanner_worker loop body, lines 106-144, for one dequeued
frame.  The external scanner call is abstracted as its returned pair
(plate, frame_contains_barcodes); when last_plate is None only the plate is
returned and frame_contains_barcodes keeps its previous value (lines 121-124).
has_slots_in_common is a method of the external plate class, passed in as hsc;
Python's (last_full_plate and ...) guard is false when last_full_plate is None. -/
def scanner_worker_step (hsc : CPlate → CPlate → Bool) (st : WorkerState)
    (scanned : CPlate × Bool) : StepOut :=
  let plate := scanned.1
  let fcb := match st.last_plate with
    | none => st.frame_contains_barcodes
    | some _ => scanned.2
  if plate.scan_ok then
    let st1 : WorkerState :=
      { last_plate := some plate, last_full_plate := st.last_full_plate,
        frame_contains_barcodes := fcb }
    if (match st.last_full_plate with | some lfp => hsc lfp plate | none => false) then
      { st := st1, results := [],
        overlays := if fcb then [OverlayMsg.scannedText] else [], beeps := [] }
    else store_branch st1 plate fcb
  else
    { st := { st with frame_contains_barcodes := fcb },
      results := [], overlays := [], beeps := [] }

end Continuous

/-! ### camera_scanner.py: capture worker, scanner worker, kill protocol -/

namespace CameraScanner

def Q_LIMIT : ℕ := 1

def SCANNED_TAG : String := "Scan Complete"

def NO_PUCK_TIME : ℚ := 2

def MAX_SAMPLE_RATE : ℚ := 10

def INTERVAL : ℚ := 1 / MAX_SAMPLE_RATE

/-- A raw camera frame payload (opaque image content). -/
abbrev Frame := ℕ

/-- One iteration of the capture worker while-loop: the kill-queue emptiness
check at the loop head, the wall-clock time and task-queue size at the enqueue
check, the captured frame, and whether the exit key was pressed. -/
structure CapIter where
  kill_signal : Bool
  time : ℚ
  qsize : ℕ
  frame : Frame
  exit_key : Bool
  deriving DecidableEq, Repr

/-- Observable output of a capture worker run: the messages put on the task
(frame) queue in order, and the times at which real frames were enqueued. -/
structure CapOut where
  msgs : List (Option Frame)
  times : List ℚ
  deriving DecidableEq, Repr

/-- camera_scanner.py _capture_worker, lines 88-116.  While the kill queue is
empty: capture a frame; enqueue it only if qsize < Q_LIMIT and at least
INTERVAL has elapsed since last_time, updating last_time; exit the loop when
the exit key is pressed.  On either loop exit (kill signal or exit key) line
114 puts the None sentinel on the task queue.  An exhausted iteration list
means the worker is still running (no exit observed). -/
def capture_worker (last_time : ℚ) : List CapIter → CapOut
  | [] => { msgs := [], times := [] }
  | it :: rest =>
    if it.kill_signal then { msgs := [none], times := [] }
    else if it.qsize < Q_LIMIT ∧ INTERVAL ≤ it.time - last_time then
      if it.exit_key then { msgs := [some it.frame, none], times := [it.time] }
      else
        let out := capture_worker it.time rest
        { msgs := some it.frame :: out.msgs, times := it.time :: out.times }
    else if it.exit_key then { msgs := [none], times := [] }
    else capture_worker last_time rest

/-- camera_scanner.py _scanner_worker loop skeleton, lines 141-145: blocking
get from the task queue; a None sentinel breaks out of the loop before any
processing; a real frame is processed.  Returns the frames processed. -/
def scanner_worker_frames : List (Option Frame) → List Frame
  | [] => []
  | none :: _ => []
  | some f :: rest => f :: scanner_worker_frames rest

/-- Emissions of CameraScanner.kill (lines 57-59) on its two queues. -/
structure KillOut where
  kill_queue : List (Option Frame)
  task_queue : List (Option Frame)
  deriving DecidableEq, Repr

/-- CameraScanner.kill: self.kill_queue.put(None); self.task_queue.put(None). -/
def kill : KillOut :=
  { kill_queue := [none], task_queue := [none] }

/-- The fields of the external plate object read by the camera scanner worker:
num_slots and num_valid_barcodes(). -/
structure Plate where
  num_slots : ℕ
  num_valid_barcodes : ℕ
  deriving DecidableEq, Repr

/-- The external ScanResult interface consumed by _scanner_worker:
success(), already_scanned(), any_valid_barcodes(), any_new_barcodes(),
plate(), error().  The scan module is not under src/. -/
structure ScanResult where
  success : Bool
  already_scanned : Bool
  any_valid_barcodes : Bool
  any_new_barcodes : Bool
  plate : Plate
  error_text : String
  deriving DecidableEq, Repr

/-- Modelled from the spec (section 3): a ScanResult carries a single outcome
tag among AlignmentFailed, DuplicateOfLastReported, PartialProgress and
NewBarcodesFound, so the DuplicateOfLastReported (already-scanned) outcome
excludes the NewBarcodesFound (any-new-barcodes) outcome. -/
def ScanResult.tagExclusive (r : ScanResult) : Prop :=
  r.already_scanned = true → r.any_new_barcodes = false

/-- The configuration values read inside the worker loop. -/
structure CamOptions where
  scan_beep : Bool
  console_frame : Bool
  deriving DecidableEq, Repr

/-- Overlay messages put on the overlay queue by _scanner_worker. -/
inductive CamOverlay where
  | scannedText
  | plateHighlight (p : Plate)
  | errorText (msg : String)
  deriving DecidableEq, Repr

/-- Python int() truncates toward zero; on a rational num/den this is
truncating integer division of the numerator by the denominator. -/
def pyInt (q : ℚ) : ℤ := Int.tdiv q.num (q.den : ℤ)

/-- camera_scanner.py _plate_beep frequency, lines 185-186, under the
from-future division import: int(10000 * (ns - nv) / ns + 37) with true
division. -/
def plate_beep_freq (num_slots num_valid : ℕ) : ℤ :=
  pyInt (10000 * (((num_slots : ℚ) - (num_valid : ℚ)) / (num_slots : ℚ)) + 37)

/-- Output of one _scanner_worker loop iteration. -/
structure CamStepOut where
  last_plate_time : ℚ
  overlays : List CamOverlay
  results : List Plate
  beeps : List ℤ
  deriving DecidableEq, Repr

/-- camera_scanner.py _scanner_worker loop body, lines 141-178, for one
dequeued real frame; r is the ScanResult returned by the external
scanner.scan_next_frame, now the current wall-clock time.  On success:
last_plate_time := now; an already-scanned result puts the SCANNED_TAG text
overlay, otherwise a plate overlay and beep when any_valid_barcodes; a result
is emitted iff any_new_barcodes.  On failure nothing is emitted except, after
more than NO_PUCK_TIME since the last plate, the error text overlay. -/
def scanner_worker_step (opt : CamOptions) (last_plate_time : ℚ)
    (r : ScanResult) (now : ℚ) : CamStepOut :=
  if r.success then
    { last_plate_time := now,
      overlays :=
        if r.already_scanned then [CamOverlay.scannedText]
        else if r.any_valid_barcodes then [CamOverlay.plateHighlight r.plate]
        else [],
      results := if r.any_new_barcodes then [r.plate] else [],
      beeps :=
        if r.already_scanned then []
        else if r.any_valid_barcodes ∧ opt.scan_beep then
          [plate_beep_freq r.plate.num_slots r.plate.num_valid_barcodes]
        else [] }
  else
    { last_plate_time := last_plate_time,
      overlays :=
        if NO_PUCK_TIME < now - last_plate_time then [CamOverlay.errorText r.error_text]
        else [],
      results := [], beeps := [] }

end CameraScanner

/-! ### Concrete inputs used by witnesses and counterexamples -/

/-- A slot holding a valid decoded barcode. -/
def validSlot : Slot :=
  { number := 0, bounds := none, barcode_position := none,
    barcode := some { is_unreadable := false, is_valid := true, data := "DF150E0101" },
    empty := false, total_frames := 1, barcode_set_this_frame := false }

/-- A slot whose empty flag is set while a stale barcode object is present. -/
def staleEmptySlot : Slot :=
  { number := 2, bounds := none, barcode_position := none,
    barcode := some { is_unreadable := false, is_valid := true, data := "DF150E0102" },
    empty := true, total_frames := 4, barcode_set_this_frame := false }

/-- A decode oracle that never resolves anything. -/
def noDecode : ℕ → ℕ → Scanner.DecodeResult := fun _ _ => Scanner.DecodeResult.noResult

/-- A constant bounds oracle. -/
def constBounds : ℕ → ℕ → (ℤ × ℤ) × ℤ := fun _ _ => ((0, 0), 1)

/-- A fully valid, correctly aligned plate. -/
def dupPlate : Continuous.CPlate :=
  { scan_ok := true, full_valid := true, num_slots := 16, num_valid_barcodes := 16 }

/-- A worker state remembering dupPlate as the last reported full plate. -/
def dupState : Continuous.WorkerState :=
  { last_plate := some dupPlate, last_full_plate := some dupPlate,
    frame_contains_barcodes := true }

/-- A has_slots_in_common oracle that always reports overlap. -/
def alwaysCommon : Continuous.CPlate → Continuous.CPlate → Bool := fun _ _ => true

/-- A plate whose geometry alignment failed. -/
def failPlate : Continuous.CPlate :=
  { scan_ok := false, full_valid := false, num_slots := 16, num_valid_barcodes := 0 }

/-- A successful scan result classified as already scanned. -/
def dupScanResult : CameraScanner.ScanResult :=
  { success := true, already_scanned := true, any_valid_barcodes := true,
    any_new_barcodes := false, plate := { num_slots := 16, num_valid_barcodes := 16 },
    error_text := "" }

/-- A scan result whose alignment failed. -/
def failScanResult : CameraScanner.ScanResult :=
  { success := false, already_scanned := false, any_valid_barcodes := false,
    any_new_barcodes := false, plate := { num_slots := 16, num_valid_barcodes := 0 },
    error_text := "No puck detected" }

/-- A concrete option set. -/
def camOpts : CameraScanner.CamOptions := { scan_beep := true, console_frame := false }

/-- A capture iteration that observes the kill signal. -/
def killIter : CameraScanner.CapIter :=
  { kill_signal := true, time := 0, qsize := 0, frame := 0, exit_key := false }

/-- A short capture run: two timely enqueues and one shed frame. -/
def c5iters : List CameraScanner.CapIter :=
  [ { kill_signal := false, time := 1/10, qsize := 0, frame := 1, exit_key := false },
    { kill_signal := false, time := 2/10, qsize := 0, frame := 2, exit_key := false },
    { kill_signal := false, time := 5/2, qsize := 1, frame := 3, exit_key := false } ]

/-! ### Helper lemmas about Slot operations -/

theorem Slot.state_new_frame (s : Slot) : s.new_frame.state = s.state := rfl

theorem Slot.state_set_bounds (s : Slot) (b : (ℤ × ℤ) × ℤ) :
    (s.set_bounds b).state = s.state := rfl

theorem Slot.barcode_new_frame (s : Slot) : s.new_frame.barcode = s.barcode := rfl

theorem Slot.barcode_set_bounds (s : Slot) (b : (ℤ × ℤ) × ℤ) :
    (s.set_bounds b).barcode = s.barcode := rfl

/-! ### Claim C8 -/

/-- Claim C8: new_frame() clears the per-frame dirty flag, increments the
internal total-frames counter, and changes nothing else: number, bounds,
barcode position, stored barcode, empty flag and hence state() are unchanged. -/
theorem C8_new_frame_effect (s : Slot) :
    s.new_frame.barcode_set_this_frame = false ∧
    s.new_frame.total_frames = s.total_frames + 1 ∧
    s.new_frame.number = s.number ∧
    s.new_frame.bounds = s.bounds ∧
    s.new_frame.barcode_position = s.barcode_position ∧
    s.new_frame.barcode = s.barcode ∧
    s.new_frame.empty = s.empty ∧
    s.new_frame.state = s.state :=
  ⟨rfl, rfl, rfl, rfl, rfl, rfl, rfl, rfl⟩

/-! ### Claim C3 -/

/-- Claim C3 as stated is false on the code: set_barcode(None) executes
self._barcode = barcode unconditionally, so a slot that was Valid because of
its stored barcode drops to NoResult; state() changes at this concrete slot. -/
theorem C3_counterexample :
    ¬ ((validSlot.set_barcode none).state = validSlot.state) := by decide

/-- Claim C3 (amended): set_barcode(None) clears the stored barcode and changes
no other field; the status is unchanged exactly when the slot was Empty or
NoResult, while a Valid or Unreadable slot becomes NoResult. -/
theorem C3_set_barcode_none_effect (s : Slot) :
    (s.set_barcode none).barcode = none ∧
    (s.set_barcode none).empty = s.empty ∧
    (s.set_barcode none).number = s.number ∧
    (s.set_barcode none).bounds = s.bounds ∧
    (s.set_barcode none).barcode_position = s.barcode_position ∧
    (s.set_barcode none).total_frames = s.total_frames ∧
    (s.set_barcode none).barcode_set_this_frame = s.barcode_set_this_frame ∧
    ((s.set_barcode none).state = s.state ↔
      (s.state = Slot.EMPTY ∨ s.state = Slot.NO_RESULT)) := by
  refine ⟨rfl, rfl, rfl, rfl, rfl, rfl, rfl, ?_⟩
  obtain ⟨num, bds, pos, bc, emp, tf, fl⟩ := s
  rcases bc with _ | ⟨u, v, d⟩ <;> cases emp <;>
    simp [Slot.set_barcode, Slot.state, Slot.EMPTY, Slot.NO_RESULT,
      Slot.UNREADABLE, Slot.VALID] <;>
    cases u <;> cases v <;> simp

/-! ### Claim C4 -/

/-- Claim C4: state() is a pure read applying the precedence Empty over
Unreadable-with-barcode over Valid-with-barcode over NoResult; the empty flag
wins even when a stale barcode object is still stored. -/
theorem C4_state_precedence (s : Slot) :
    (s.empty = true → s.state = Slot.EMPTY) ∧
    (∀ b, s.barcode = some b → s.empty = true → s.state = Slot.EMPTY) ∧
    (s.empty = false → ∀ b, s.barcode = some b → b.is_unreadable = true →
      s.state = Slot.UNREADABLE) ∧
    (s.empty = false → ∀ b, s.barcode = some b → b.is_unreadable = false →
      b.is_valid = true → s.state = Slot.VALID) ∧
    (s.empty = false →
      (∀ b, s.barcode = some b → b.is_unreadable = false ∧ b.is_valid = false) →
      s.state = Slot.NO_RESULT) := by
  refine ⟨?_, ?_, ?_, ?_, ?_⟩
  · intro h; simp [Slot.state, h]
  · intro b _ h; simp [Slot.state, h]
  · intro he b hb hu; simp [Slot.state, he, hb, hu]
  · intro he b hb hu hv; simp [Slot.state, he, hb, hu, hv]
  · intro he hall
    rcases hbc : s.barcode with _ | b
    · simp [Slot.state, he, hbc]
    · obtain ⟨hu, hv⟩ := hall b hbc
      simp [Slot.state, he, hbc, hu, hv]

/-- Witness for C4 at a concrete slot whose empty flag is set while a stale
valid barcode object is still stored: state() is Empty. -/
theorem C4_witness : staleEmptySlot.state = Slot.EMPTY :=
  (C4_state_precedence staleEmptySlot).2.1
    { is_unreadable := false, is_valid := true, data := "DF150E0102" } rfl rfl

/-! ### Claim C10 -/

/-- Claim C10: barcode_data() is total and never absent: the empty sentinel
whenever the empty flag is set (taking precedence over any stored barcode),
the stored barcode data when present and not empty, and the not-found
sentinel otherwise. -/
theorem C10_barcode_data_total (s : Slot) :
    (s.empty = true → s.barcode_data = EMPTY_SLOT_SYMBOL) ∧
    (s.empty = false → ∀ b, s.barcode = some b → s.barcode_data = b.data) ∧
    (s.empty = false → s.barcode = none → s.barcode_data = NOT_FOUND_SLOT_SYMBOL) := by
  refine ⟨?_, ?_, ?_⟩
  · intro h; simp [Slot.barcode_data, h]
  · intro he b hb; simp [Slot.barcode_data, he, hb]
  · intro he hb; simp [Slot.barcode_data, he, hb]

/-- Witness for C10: on the empty-flagged slot with a stale stored barcode the
empty sentinel takes precedence. -/
theorem C10_witness : staleEmptySlot.barcode_data = EMPTY_SLOT_SYMBOL :=
  (C10_barcode_data_total staleEmptySlot).1 rfl

/-! ### Claim C9 -/

/-- Claim C9 is violated by continuous.py: the repository is Python 2 and
continuous.py has no from-future division import, so its
(num_slots - num_valid)/num_slots floor-divides to 0 whenever any barcode is
valid.  At num_slots = 16, num_valid = 8 continuous.py beeps at 37 Hz while
camera_scanner.py (true division) beeps at 5037 Hz. -/
theorem C9_beep_divergence :
    Continuous.cont_beep_freq 16 8 = 37 ∧
    CameraScanner.plate_beep_freq 16 8 = 5037 ∧
    Continuous.cont_beep_freq 16 8 ≠ CameraScanner.plate_beep_freq 16 8 := by
  have h1 : Continuous.cont_beep_freq 16 8 = 37 := by decide
  have h2 : CameraScanner.plate_beep_freq 16 8 = 5037 := by
    have h : (10000 * ((((16 : ℕ) : ℚ) - ((8 : ℕ) : ℚ)) / ((16 : ℕ) : ℚ)) + 37) = (5037 : ℚ) := by
      norm_num
    unfold CameraScanner.plate_beep_freq
    rw [h]
    unfold CameraScanner.pyInt
    norm_num
  exact ⟨h1, h2, by rw [h1, h2]; decide⟩

/-! ### Claim C1: helper lemmas for the merge engine -/

theorem Scanner.mergeSlot_of_valid (d : Scanner.DecodeResult) (b : (ℤ × ℤ) × ℤ)
    (s : Slot) (h : s.state = Slot.VALID) :
    Scanner.mergeSlot d b s = ((s.new_frame).set_bounds b, false) := by
  simp [Scanner.mergeSlot, Slot.state_set_bounds, Slot.state_new_frame, h]

theorem Scanner.runFrames_get_succ (dec : ℕ → ℕ → Scanner.DecodeResult)
    (bnds : ℕ → ℕ → (ℤ × ℤ) × ℤ) (slots : List Slot) (n i : ℕ) :
    (Scanner.runFrames dec bnds slots (n + 1)).get? i =
      ((Scanner.runFrames dec bnds slots n).get? i).map
        (fun s => (Scanner.mergeSlot (dec n s.number) (bnds n s.number) s).1) := by
  simp only [Scanner.runFrames, Scanner.mergeFrame, List.map_map, List.get?_map]
  rfl

theorem Scanner.invokedRow_get (dec : ℕ → ℕ → Scanner.DecodeResult)
    (bnds : ℕ → ℕ → (ℤ × ℤ) × ℤ) (slots : List Slot) (n i : ℕ) :
    (Scanner.invokedRow dec bnds slots n).get? i =
      ((Scanner.runFrames dec bnds slots n).get? i).map
        (fun s => (Scanner.mergeSlot (dec n s.number) (bnds n s.number) s).2) := by
  simp only [Scanner.invokedRow, Scanner.mergeFrame, List.map_map, List.get?_map]
  rfl

theorem Scanner.valid_persists (dec : ℕ → ℕ → Scanner.DecodeResult)
    (bnds : ℕ → ℕ → (ℤ × ℤ) × ℤ) (slots : List Slot) (i k : ℕ) (s : Slot)
    (hs : (Scanner.runFrames dec bnds slots k).get? i = some s)
    (hv : s.state = Slot.VALID) :
    ∀ n, k ≤ n → ∃ t, (Scanner.runFrames dec bnds slots n).get? i = some t ∧
      t.state = Slot.VALID ∧ t.barcode = s.barcode := by
  intro n hn
  induction n, hn using Nat.le_induction with
  | base => exact ⟨s, hs, hv, rfl⟩
  | succ m hm ih =>
    obtain ⟨t, ht, htv, htb⟩ := ih
    refine ⟨(t.new_frame).set_bounds (bnds m t.number), ?_, ?_, ?_⟩
    · rw [Scanner.runFrames_get_succ, ht]
      simp [Scanner.mergeSlot_of_valid (dec m t.number) (bnds m t.number) t htv]
    · rw [Slot.state_set_bounds, Slot.state_new_frame]; exact htv
    · rw [Slot.barcode_set_bounds, Slot.barcode_new_frame]; exact htb

/-- Claim C1: once the slot at index i has reached Valid by some frame k, no
later frame invokes the decode capability for that index, and the previously
decoded barcode is retained as-is in every later plate state. -/
theorem C1_valid_slot_skips_decode (dec : ℕ → ℕ → Scanner.DecodeResult)
    (bnds : ℕ → ℕ → (ℤ × ℤ) × ℤ) (slots : List Slot) (i k : ℕ) (s : Slot)
    (hs : (Scanner.runFrames dec bnds slots k).get? i = some s)
    (hv : s.state = Slot.VALID) :
    ∀ n, k ≤ n →
      (Scanner.invokedRow dec bnds slots n).get? i = some false ∧
      ∃ t, (Scanner.runFrames dec bnds slots n).get? i = some t ∧
        t.state = Slot.VALID ∧ t.barcode = s.barcode := by
  intro n hn
  obtain ⟨t, ht, htv, htb⟩ := Scanner.valid_persists dec bnds slots i k s hs hv n hn
  refine ⟨?_, t, ht, htv, htb⟩
  rw [Scanner.invokedRow_get, ht]
  simp [Scanner.mergeSlot_of_valid (dec n t.number) (bnds n t.number) t htv]

/-- Witness for C1: a one-slot session whose slot is already Valid; at frame 3
the decode capability is not invoked for it and its barcode is unchanged. -/
theorem C1_witness :
    (Scanner.invokedRow noDecode constBounds [validSlot] 3).get? 0 = some false ∧
    ∃ t, (Scanner.runFrames noDecode constBounds [validSlot] 3).get? 0 = some t ∧
      t.state = Slot.VALID ∧ t.barcode = validSlot.barcode :=
  C1_valid_slot_skips_decode noDecode constBounds [validSlot] 0 0 validSlot rfl
    (by decide) 3 (by decide)

/-! ### Claim C2 -/

/-- Claim C2: a frame whose aligned plate is classified as a duplicate of the
last reported plate causes no result-queue emission; at most the lightweight
already-scanned overlay is emitted.  First conjunct: the continuous.py worker,
directly from code.  Second conjunct: the camera_scanner.py worker, under the
spec-modelled exclusivity of the ScanResult outcome tag. -/
theorem C2_duplicate_no_result_emission :
    (∀ (hsc : Continuous.CPlate → Continuous.CPlate → Bool)
       (st : Continuous.WorkerState) (p : Continuous.CPlate) (f : Bool)
       (lfp : Continuous.CPlate),
        st.last_full_plate = some lfp → p.scan_ok = true → hsc lfp p = true →
          (Continuous.scanner_worker_step hsc st (p, f)).results = [] ∧
          (Continuous.scanner_worker_step hsc st (p, f)).beeps = [] ∧
          ((Continuous.scanner_worker_step hsc st (p, f)).overlays = [] ∨
            (Continuous.scanner_worker_step hsc st (p, f)).overlays =
              [Continuous.OverlayMsg.scannedText])) ∧
    (∀ (opt : CameraScanner.CamOptions) (lpt now : ℚ) (r : CameraScanner.ScanResult),
        r.tagExclusive → r.success = true → r.already_scanned = true →
          (CameraScanner.scanner_worker_step opt lpt r now).results = [] ∧
          (CameraScanner.scanner_worker_step opt lpt r now).overlays =
            [CameraScanner.CamOverlay.scannedText]) := by
  constructor
  · intro hsc st p f lfp hlfp hok hdup
    rcases hlp : st.last_plate with _ | q
    · cases hf : st.frame_contains_barcodes
      · refine ⟨?_, ?_, Or.inl ?_⟩ <;>
          simp [Continuous.scanner_worker_step, hlfp, hok, hdup, hlp, hf]
      · refine ⟨?_, ?_, Or.inr ?_⟩ <;>
          simp [Continuous.scanner_worker_step, hlfp, hok, hdup, hlp, hf]
    · cases f
      · refine ⟨?_, ?_, Or.inl ?_⟩ <;>
          simp [Continuous.scanner_worker_step, hlfp, hok, hdup, hlp]
      · refine ⟨?_, ?_, Or.inr ?_⟩ <;>
          simp [Continuous.scanner_worker_step, hlfp, hok, hdup, hlp]
  · intro opt lpt now r hex hsucc hdup
    have hnew := hex hdup
    constructor <;> simp [CameraScanner.scanner_worker_step, hsucc, hdup, hnew]

/-- Witness for C2: a concrete duplicate frame in both workers produces no
result emission and only the already-scanned overlay. -/
theorem C2_witness :
    (Continuous.scanner_worker_step alwaysCommon dupState (dupPlate, true)).results = [] ∧
    (Continuous.scanner_worker_step alwaysCommon dupState (dupPlate, true)).beeps = [] ∧
    ((Continuous.scanner_worker_step alwaysCommon dupState (dupPlate, true)).overlays = [] ∨
      (Continuous.scanner_worker_step alwaysCommon dupState (dupPlate, true)).overlays =
        [Continuous.OverlayMsg.scannedText]) ∧
    (CameraScanner.scanner_worker_step camOpts 0 dupScanResult 1).results = [] ∧
    (CameraScanner.scanner_worker_step camOpts 0 dupScanResult 1).overlays =
      [CameraScanner.CamOverlay.scannedText] := by
  obtain ⟨h1, h2, h3⟩ := C2_duplicate_no_result_emission.1 alwaysCommon dupState
    dupPlate true dupPlate rfl rfl rfl
  obtain ⟨h4, h5⟩ := C2_duplicate_no_result_emission.2 camOpts 0 1 dupScanResult
    (fun _ => rfl) rfl rfl
  exact ⟨h1, h2, h3, h4, h5⟩

/-! ### Claim C7 -/

/-- Claim C7: a frame whose geometry alignment fails leaves the scan worker's
remembered state unchanged and emits no result: in continuous.py last_plate
and last_full_plate keep their previous values and nothing is emitted at all;
in camera_scanner.py no result is emitted, last_plate_time is unchanged, and
at most the transient error overlay appears, only after the grace period. -/
theorem C7_alignment_failure_preserves_state :
    (∀ (hsc : Continuous.CPlate → Continuous.CPlate → Bool)
       (st : Continuous.WorkerState) (p : Continuous.CPlate) (f : Bool),
        p.scan_ok = false →
          (Continuous.scanner_worker_step hsc st (p, f)).st.last_plate = st.last_plate ∧
          (Continuous.scanner_worker_step hsc st (p, f)).st.last_full_plate =
            st.last_full_plate ∧
          (Continuous.scanner_worker_step hsc st (p, f)).results = [] ∧
          (Continuous.scanner_worker_step hsc st (p, f)).overlays = [] ∧
          (Continuous.scanner_worker_step hsc st (p, f)).beeps = []) ∧
    (∀ (opt : CameraScanner.CamOptions) (lpt now : ℚ) (r : CameraScanner.ScanResult),
        r.success = false →
          (CameraScanner.scanner_worker_step opt lpt r now).last_plate_time = lpt ∧
          (CameraScanner.scanner_worker_step opt lpt r now).results = [] ∧
          (CameraScanner.scanner_worker_step opt lpt r now).beeps = [] ∧
          (now - lpt ≤ CameraScanner.NO_PUCK_TIME →
            (CameraScanner.scanner_worker_step opt lpt r now).overlays = []) ∧
          ((CameraScanner.scanner_worker_step opt lpt r now).overlays = [] ∨
            (CameraScanner.scanner_worker_step opt lpt r now).overlays =
              [CameraScanner.CamOverlay.errorText r.error_text])) := by
  constructor
  · intro hsc st p f hfail
    refine ⟨?_, ?_, ?_, ?_, ?_⟩ <;> simp [Continuous.scanner_worker_step, hfail]
  · intro opt lpt now r hfail
    refine ⟨?_, ?_, ?_, ?_, ?_⟩
    · simp [CameraScanner.scanner_worker_step, hfail]
    · simp [CameraScanner.scanner_worker_step, hfail]
    · simp [CameraScanner.scanner_worker_step, hfail]
    · intro h
      simp [CameraScanner.scanner_worker_step, hfail, not_lt.mpr h]
    · by_cases hc : CameraScanner.NO_PUCK_TIME < now - lpt
      · right; simp [CameraScanner.scanner_worker_step, hfail, hc]
      · left; simp [CameraScanner.scanner_worker_step, hfail, hc]

/-- Witness for C7 at a concrete failed-alignment frame in both workers. -/
theorem C7_witness :
    (Continuous.scanner_worker_step alwaysCommon dupState (failPlate, false)).results = [] ∧
    (Continuous.scanner_worker_step alwaysCommon dupState (failPlate, false)).st.last_full_plate =
      dupState.last_full_plate ∧
    (CameraScanner.scanner_worker_step camOpts 0 failScanResult 1).results = [] ∧
    (CameraScanner.scanner_worker_step camOpts 0 failScanResult 1).overlays = [] := by
  obtain ⟨h1, h2, h3, h4, h5⟩ := C7_alignment_failure_preserves_state.1 alwaysCommon
    dupState failPlate false rfl
  obtain ⟨g1, g2, g3, g4, g5⟩ := C7_alignment_failure_preserves_state.2 camOpts 0 1
    failScanResult rfl
  exact ⟨h3, h2, g2, g4 (by norm_num [CameraScanner.NO_PUCK_TIME])⟩

/-! ### Claim C6 -/

theorem CameraScanner.capture_exit_puts_sentinel (l : List CameraScanner.CapIter) :
    ∀ t0 : ℚ, (∃ it ∈ l, it.kill_signal = true ∨ it.exit_key = true) →
      (none : Option CameraScanner.Frame) ∈ (CameraScanner.capture_worker t0 l).msgs := by
  induction l with
  | nil =>
    intro t0 h
    rcases h with ⟨it, hmem, _⟩
    cases hmem
  | cons it rest ih =>
    intro t0 h
    cases hk : it.kill_signal with
    | true => simp [CameraScanner.capture_worker, hk]
    | false =>
      by_cases henq : it.qsize < CameraScanner.Q_LIMIT ∧
          CameraScanner.INTERVAL ≤ it.time - t0
      · cases hex : it.exit_key with
        | true => simp [CameraScanner.capture_worker, hk, henq, hex]
        | false =>
          have hrest : ∃ j ∈ rest, j.kill_signal = true ∨ j.exit_key = true := by
            rcases h with ⟨j, hj, hflag⟩
            rcases List.mem_cons.mp hj with rfl | hj2
            · rcases hflag with hf | hf
              · rw [hk] at hf; cases hf
              · rw [hex] at hf; cases hf
            · exact ⟨j, hj2, hflag⟩
          have hsent := ih it.time hrest
          simp [CameraScanner.capture_worker, hk, henq, hex, hsent]
      · cases hex : it.exit_key with
        | true => simp [CameraScanner.capture_worker, hk, henq, hex]
        | false =>
          have hrest : ∃ j ∈ rest, j.kill_signal = true ∨ j.exit_key = true := by
            rcases h with ⟨j, hj, hflag⟩
            rcases List.mem_cons.mp hj with rfl | hj2
            · rcases hflag with hf | hf
              · rw [hk] at hf; cases hf
              · rw [hex] at hf; cases hf
            · exact ⟨j, hj2, hflag⟩
          have hsent := ih t0 hrest
          simp [CameraScanner.capture_worker, hk, henq, hex, hsent]

/-- Claim C6: the termination protocol: the frame-queue sentinel None is
distinguishable from every real frame payload; the scan worker that dequeues
the sentinel exits its loop without processing it; and both shutdown paths,
the kill() call and any capture worker loop exit (kill signal or exit key),
put the sentinel on the frame queue. -/
theorem C6_termination_protocol :
    (∀ f : CameraScanner.Frame, (none : Option CameraScanner.Frame) ≠ some f) ∧
    (∀ rest : List (Option CameraScanner.Frame),
      CameraScanner.scanner_worker_frames (none :: rest) = []) ∧
    ((none : Option CameraScanner.Frame) ∈ CameraScanner.kill.task_queue) ∧
    (∀ (t0 : ℚ) (l : List CameraScanner.CapIter),
      (∃ it ∈ l, it.kill_signal = true ∨ it.exit_key = true) →
      (none : Option CameraScanner.Frame) ∈ (CameraScanner.capture_worker t0 l).msgs) := by
  refine ⟨fun f h => Option.noConfusion h, fun rest => rfl, ?_, ?_⟩
  · simp [CameraScanner.kill]
  · intro t0 l h
    exact CameraScanner.capture_exit_puts_sentinel l t0 h

/-- Witness for C6: a capture run that sees the kill signal at its first
iteration puts the sentinel on the frame queue. -/
theorem C6_witness :
    (none : Option CameraScanner.Frame) ∈ (CameraScanner.capture_worker 0 [killIter]).msgs :=
  C6_termination_protocol.2.2.2 0 [killIter]
    ⟨killIter, List.mem_cons_self killIter [], Or.inl rfl⟩

/-! ### Claim C5: helper lemmas -/

theorem CameraScanner.INTERVAL_pos : 0 < CameraScanner.INTERVAL := by
  norm_num [CameraScanner.INTERVAL, CameraScanner.MAX_SAMPLE_RATE]

theorem CameraScanner.capture_times_spread (l : List CameraScanner.CapIter) :
    ∀ t0 : ℚ,
      (∀ x ∈ (CameraScanner.capture_worker t0 l).times,
        t0 + CameraScanner.INTERVAL ≤ x) ∧
      (CameraScanner.capture_worker t0 l).times.Pairwise
        (fun a b => a + CameraScanner.INTERVAL ≤ b) := by
  induction l with
  | nil => intro t0; simp [CameraScanner.capture_worker]
  | cons it rest ih =>
    intro t0
    cases hk : it.kill_signal with
    | true => simp [CameraScanner.capture_worker, hk]
    | false =>
      by_cases henq : it.qsize < CameraScanner.Q_LIMIT ∧
          CameraScanner.INTERVAL ≤ it.time - t0
      · cases hex : it.exit_key with
        | true =>
          constructor
          · intro x hx
            simp [CameraScanner.capture_worker, hk, henq, hex] at hx
            rw [hx]
            linarith [henq.2]
          · simp [CameraScanner.capture_worker, hk, henq, hex]
        | false =>
          obtain ⟨ihmem, ihpw⟩ := ih it.time
          constructor
          · intro x hx
            simp [CameraScanner.capture_worker, hk, henq, hex] at hx
            rcases hx with rfl | hx
            · linarith [henq.2]
            · have h2 := ihmem x hx
              have h3 := CameraScanner.INTERVAL_pos
              linarith [henq.2]
          · have hgoal : (CameraScanner.capture_worker t0 (it :: rest)).times =
                it.time :: (CameraScanner.capture_worker it.time rest).times := by
              simp [CameraScanner.capture_worker, hk, henq, hex]
            rw [hgoal, List.pairwise_cons]
            refine ⟨fun y hy => ?_, ihpw⟩
            exact le_trans (by linarith [henq.2]) (ihmem y hy)
      · cases hex : it.exit_key with
        | true => simp [CameraScanner.capture_worker, hk, henq, hex]
        | false =>
          have hgoal : CameraScanner.capture_worker t0 (it :: rest) =
              CameraScanner.capture_worker t0 rest := by
            simp [CameraScanner.capture_worker, hk, henq, hex]
          rw [hgoal]
          exact ih t0

theorem window_count_le (d : ℚ) (hd : 0 < d) :
    ∀ (l : List ℚ) (w T : ℚ), 0 ≤ T →
      l.Pairwise (fun a b => a + d ≤ b) →
      (∀ x ∈ l, w ≤ x ∧ x < w + T) →
      (l.length : ℤ) ≤ ⌈T / d⌉ := by
  intro l
  induction l with
  | nil =>
    intro w T hT _ _
    simpa using Int.ceil_nonneg (div_nonneg hT hd.le)
  | cons x xs ih =>
    intro w T hT hp hm
    obtain ⟨hw, hx⟩ := hm x (List.mem_cons_self x xs)
    obtain ⟨hhead, hptail⟩ := List.pairwise_cons.mp hp
    cases xs with
    | nil =>
      have hT0 : 0 < T := by linarith
      have h1 : (0 : ℤ) < ⌈T / d⌉ := Int.ceil_pos.mpr (div_pos hT0 hd)
      simp only [List.length_cons, List.length_nil]
      omega
    | cons y ys =>
      have hxy : x + d ≤ y := hhead y (List.mem_cons_self y ys)
      have hy : y < w + T := (hm y (List.mem_cons_of_mem x (List.mem_cons_self y ys))).2
      have hT0 : 0 ≤ w + T - (x + d) := by linarith
      have hmem2 : ∀ z ∈ y :: ys, x + d ≤ z ∧ z < (x + d) + (w + T - (x + d)) := by
        intro z hz
        refine ⟨hhead z hz, ?_⟩
        have hz2 := (hm z (List.mem_cons_of_mem x hz)).2
        linarith
      have hrec := ih (x + d) (w + T - (x + d)) hT0 hptail hmem2
      have hle : (w + T - (x + d)) / d ≤ (T - d) / d := by
        apply div_le_div_of_nonneg_right ?_ hd.le
        linarith
      have hceil : ⌈(w + T - (x + d)) / d⌉ ≤ ⌈T / d⌉ - 1 := by
        calc ⌈(w + T - (x + d)) / d⌉ ≤ ⌈(T - d) / d⌉ := Int.ceil_mono hle
          _ = ⌈T / d - 1⌉ := by rw [sub_div, div_self hd.ne']
          _ = ⌈T / d⌉ - 1 := Int.ceil_sub_one _
      simp only [List.length_cons] at hrec ⊢
      push_cast at hrec ⊢
      linarith

theorem CameraScanner.capture_times_sourced (l : List CameraScanner.CapIter) :
    ∀ (t0 x : ℚ), x ∈ (CameraScanner.capture_worker t0 l).times →
      ∃ it ∈ l, x = it.time ∧ it.qsize < CameraScanner.Q_LIMIT := by
  induction l with
  | nil => intro t0 x hx; simp [CameraScanner.capture_worker] at hx
  | cons it rest ih =>
    intro t0 x hx
    cases hk : it.kill_signal with
    | true => simp [CameraScanner.capture_worker, hk] at hx
    | false =>
      by_cases henq : it.qsize < CameraScanner.Q_LIMIT ∧
          CameraScanner.INTERVAL ≤ it.time - t0
      · cases hex : it.exit_key with
        | true =>
          simp [CameraScanner.capture_worker, hk, henq, hex] at hx
          exact ⟨it, List.mem_cons_self it rest, hx, henq.1⟩
        | false =>
          simp [CameraScanner.capture_worker, hk, henq, hex] at hx
          rcases hx with rfl | hx
          · exact ⟨it, List.mem_cons_self it rest, rfl, henq.1⟩
          · obtain ⟨j, hj, hjx, hjq⟩ := ih it.time x hx
            exact ⟨j, List.mem_cons_of_mem it hj, hjx, hjq⟩
      · cases hex : it.exit_key with
        | true => simp [CameraScanner.capture_worker, hk, henq, hex] at hx
        | false =>
          simp [CameraScanner.capture_worker, hk, henq, hex] at hx
          obtain ⟨j, hj, hjx, hjq⟩ := ih t0 x hx
          exact ⟨j, List.mem_cons_of_mem it hj, hjx, hjq⟩

/-- Claim C5: the capture worker enqueues a frame only at an iteration where
the task queue is below capacity Q_LIMIT = 1, consecutive enqueue times are at
least the sampling interval INTERVAL apart, and consequently over any
half-open window of nonnegative length T at most ceil(T / INTERVAL) frames
are ever enqueued. -/
theorem C5_frame_queue_load_shedding (t0 w T : ℚ) (hT : 0 ≤ T)
    (iters : List CameraScanner.CapIter) :
    (∀ x ∈ (CameraScanner.capture_worker t0 iters).times,
       ∃ it ∈ iters, x = it.time ∧ it.qsize < CameraScanner.Q_LIMIT) ∧
    ((CameraScanner.capture_worker t0 iters).times.Pairwise
       (fun a b => a + CameraScanner.INTERVAL ≤ b)) ∧
    ((((CameraScanner.capture_worker t0 iters).times.filter
         (fun x => decide (w ≤ x) && decide (x < w + T))).length : ℤ)
       ≤ ⌈T / CameraScanner.INTERVAL⌉) := by
  obtain ⟨hmem, hpw⟩ := CameraScanner.capture_times_spread iters t0
  refine ⟨fun x hx => CameraScanner.capture_times_sourced iters t0 x hx, hpw, ?_⟩
  apply window_count_le CameraScanner.INTERVAL CameraScanner.INTERVAL_pos _ w T hT
  · exact List.Pairwise.sublist (List.filter_sublist _) hpw
  · intro x hx
    rw [List.mem_filter] at hx
    have hx2 := hx.2
    simp only [Bool.and_eq_true, decide_eq_true_eq] at hx2
    exact hx2

/-- Witness for C5: on a concrete three-iteration capture run, the number of
frames enqueued inside the unit window starting at 0 is at most
ceil(1 / INTERVAL). -/
theorem C5_witness :
    ((((CameraScanner.capture_worker 0 c5iters).times.filter
        (fun x => decide ((0 : ℚ) ≤ x) && decide (x < 0 + 1))).length : ℤ)
      ≤ ⌈(1 : ℚ) / CameraScanner.INTERVAL⌉) :=
  (C5_frame_queue_load_shedding 0 0 1 (by norm_num) c5iters).2.2
